import Mathlib

/-!
Shallow embedding of src/script.js, the single script of the EDUCATUM
landing page.  The script holds two near-identical variants: the
"Education" variant (first half of the file) and the "Educatum" variant
(second half).  Definitions suffixed with Edu embed the Education
variant, definitions suffixed with Ecu embed the Educatum variant, and
unsuffixed definitions are literally identical in both variants.

Strings manipulated by the script (embed URLs, theme names, style
values) are modelled as Lean String where only equality matters, and as
List Char where substring search and replacement matter, mirroring the
JavaScript String methods includes and replace (string pattern, first
occurrence only).  Storage access that can throw is modelled with
Except Unit; a thrown exception is the error case.
-/

/-! ## JavaScript string primitives (over character lists) -/

/-- Prefix test over character lists: the first list is a prefix of the
second.  Building block for the models of includes and replace. -/
def isPrefixL : List Char → List Char → Bool
  | [], _ => true
  | _ :: _, [] => false
  | a :: n, b :: h => a == b && isPrefixL n h

/-- Model of JS hay.includes(needle): some suffix of hay starts with
needle. -/
def containsSub : List Char → List Char → Bool
  | [], needle => isPrefixL needle []
  | c :: t, needle => isPrefixL needle (c :: t) || containsSub t needle

/-- Model of JS hay.replace(needle, repl) with a string pattern: only
the first occurrence is replaced. -/
def replaceFirst : List Char → List Char → List Char → List Char
  | [], needle, repl => if isPrefixL needle [] then repl else []
  | c :: t, needle, repl =>
    if isPrefixL needle (c :: t) then repl ++ (c :: t).drop needle.length
    else c :: replaceFirst t needle repl

/-- Number of occurrences of needle in hay (counting at every start
position); used to state that a URL carries exactly one autoplay
parameter. -/
def countSub : List Char → List Char → Nat
  | [], needle => if isPrefixL needle [] then 1 else 0
  | c :: t, needle => (if isPrefixL needle (c :: t) then 1 else 0) + countSub t needle

/-- JS truthiness of a nullable string: null and the empty string are
falsy, every other string is truthy.  Used for
if (savedTheme) return savedTheme. -/
def jsTruthy : Option String → Bool
  | none => false
  | some s => s != ""

/-! ## ThemeManager (script.js lines 209-302 Education, 1634-1682 Educatum) -/

/-- The fallback computed from the prefers-color-scheme media query:
dark when the query matches, light otherwise. -/
def mediaFallback (prefersDark : Bool) : String :=
  if prefersDark then "dark" else "light"

/-- Observable state touched by ThemeManager: its currentTheme field,
the data-theme attribute of the document root, the icon class and
aria-pressed attribute of the toggle button, and the persisted storage
value. -/
structure ThemeState where
  currentTheme : String
  dataTheme : String
  iconClass : String
  ariaPressed : String
  stored : Option String
deriving DecidableEq

/-- ThemeManager.applyTheme: records the theme, sets the data-theme
attribute on the document root, and updates the toggle icon and its
aria-pressed attribute.  Identical in both variants (the Education
variant additionally guards the DOM writes with try/catch). -/
def applyTheme (theme : String) (st : ThemeState) : ThemeState :=
  { st with
    currentTheme := theme
    dataTheme := theme
    iconClass := if theme = "dark" then "fas fa-sun" else "fas fa-moon"
    ariaPressed := if theme = "dark" then "true" else "false" }

/-- The state change of ThemeManager.toggleTheme before the storage
write: flip light to dark and anything else to light, then apply. -/
def toggleThemeState (st : ThemeState) : ThemeState :=
  applyTheme (if st.currentTheme = "light" then "dark" else "light") st

/-- Body of the Education variant toggleTheme (inside its try block):
apply the flipped theme, then persist it when storage is available; a
throwing setItem is the error case. -/
def toggleThemeBody_Edu (st : ThemeState) (avail setItemThrows : Bool) :
    Except Unit ThemeState :=
  let st1 := toggleThemeState st
  if avail then
    if setItemThrows then .error ()
    else .ok { st1 with stored := some st1.currentTheme }
  else .ok st1

/-- Education variant ThemeManager.toggleTheme: the whole body sits in
try/catch, so a storage failure is swallowed and the mutations already
performed (the applied theme) are kept. -/
def toggleTheme_Edu (st : ThemeState) (avail setItemThrows : Bool) : ThemeState :=
  match toggleThemeBody_Edu st avail setItemThrows with
  | .ok s => s
  | .error _ => toggleThemeState st

/-- Educatum variant ThemeManager.toggleTheme: no try/catch and no
availability guard; a throwing localStorage.setItem propagates. -/
def toggleTheme_Ecu (st : ThemeState) (setItemThrows : Bool) :
    Except Unit ThemeState :=
  let st1 := toggleThemeState st
  if setItemThrows then .error ()
  else .ok { st1 with stored := some st1.currentTheme }

/-- Education variant ThemeManager.getInitialTheme: consult storage only
when the startup availability probe succeeded; a truthy saved value is
returned verbatim, otherwise fall back to the media query, then light.
The getItem call itself may throw (error case). -/
def getInitialTheme_Edu (avail : Bool) (getItem : Except Unit (Option String))
    (prefersDark : Bool) : Except Unit String :=
  if avail then
    match getItem with
    | .error e => .error e
    | .ok saved =>
      if jsTruthy saved then .ok (saved.getD "")
      else .ok (mediaFallback prefersDark)
  else .ok (mediaFallback prefersDark)

/-- Educatum variant ThemeManager.getInitialTheme: reads storage
unconditionally, with no availability guard and no try/catch. -/
def getInitialTheme_Ecu (getItem : Except Unit (Option String))
    (prefersDark : Bool) : Except Unit String :=
  match getItem with
  | .error e => .error e
  | .ok saved =>
    if jsTruthy saved then .ok (saved.getD "")
    else .ok (mediaFallback prefersDark)

/-- Education variant system color-scheme change listener: when storage
is unavailable or holds no truthy value, apply the theme matching the
media query; the storage read is short-circuited away when the
availability flag is false. -/
def mediaChangeListener_Edu (avail : Bool) (getItem : Except Unit (Option String))
    (mediaMatches : Bool) (st : ThemeState) : Except Unit ThemeState :=
  if !avail then .ok (applyTheme (mediaFallback mediaMatches) st)
  else
    match getItem with
    | .error e => .error e
    | .ok saved =>
      if jsTruthy saved then .ok st
      else .ok (applyTheme (mediaFallback mediaMatches) st)

/-! ## ParticleSystem (script.js lines 723-844 Education, 1933-2017 Educatum) -/

/-- One particle record as pushed by createParticles: position in
percentage units, a per-frame velocity vector, and a size.  JavaScript
numbers are modelled as rationals. -/
structure Particle where
  x : ℚ
  y : ℚ
  vx : ℚ
  vy : ℚ
  size : ℚ

/-- The per-particle body of ParticleSystem.animate: add the velocity to
the position, then negate a velocity component when the updated
coordinate has crossed 0 or 100 (strict comparisons, no clamping). -/
def stepParticle (p : Particle) : Particle :=
  let x := p.x + p.vx
  let y := p.y + p.vy
  { p with
    x := x
    y := y
    vx := if x < 0 ∨ 100 < x then -p.vx else p.vx
    vy := if y < 0 ∨ 100 < y then -p.vy else p.vy }

/-- The state of a ParticleSystem instance: its particles array and the
isActive flag consulted at the top of animate. -/
structure ParticleSystemState where
  particles : List Particle
  isActive : Bool

/-- One call of ParticleSystem.animate: returns immediately when
isActive is false, otherwise advances every particle. -/
def animate (s : ParticleSystemState) : ParticleSystemState :=
  if s.isActive then { s with particles := s.particles.map stepParticle } else s

/-- n animation-frame advances (animate reschedules itself each
frame). -/
def animateN : Nat → ParticleSystemState → ParticleSystemState
  | 0, s => s
  | n + 1, s => animateN n (animate s)

/-- The particle count chosen by createParticles:
Math.min(50, Math.floor(window.innerWidth / 30)). -/
def particleCount (innerWidth : Nat) : Nat :=
  min 50 (innerWidth / 30)

/-- ParticleSystem.createParticles: the loop creates particleCount
particles, each produced from its own random draws (modelled by the
function rand on the loop index). -/
def createParticles (innerWidth : Nat) (rand : Nat → Particle) : List Particle :=
  (List.range (particleCount innerWidth)).map rand

/-- ParticleSystem.init: below 769 px of viewport width, or when the
user requests reduced motion, no particles are created; otherwise
createParticles runs. -/
def initParticles (innerWidth : Nat) (prefersReducedMotion : Bool)
    (rand : Nat → Particle) : List Particle :=
  if 768 < innerWidth ∧ prefersReducedMotion = false then
    createParticles innerWidth rand
  else []

/-- The per-particle constraints of createParticles on the claimed
random ranges: positions drawn from [0,100] and velocity components
drawn from [-0.5, 0.5]. -/
def ParticleInitOk (p : Particle) : Prop :=
  0 ≤ p.x ∧ p.x ≤ 100 ∧ 0 ≤ p.y ∧ p.y ≤ 100 ∧
  -(1/2) ≤ p.vx ∧ p.vx ≤ 1/2 ∧ -(1/2) ≤ p.vy ∧ p.vy ≤ 1/2

/-- One coordinate stays in the band [-0.5, 100.5]. -/
def InBand (a : ℚ) : Prop := -(1/2) ≤ a ∧ a ≤ 100 + 1/2

/-- Inductive invariant for one axis of the reflecting update: the
velocity magnitude is at most one half, and the coordinate is either
inside [0,100], or outside with the (already flipped) velocity pointing
back so that the next frame lands inside [0,100]. -/
def goodAxis (x v : ℚ) : Prop :=
  |v| ≤ 1/2 ∧
    ((0 ≤ x ∧ x ≤ 100) ∨
     (x < 0 ∧ 0 < v ∧ 0 ≤ x + v ∧ x + v ≤ 100) ∨
     (100 < x ∧ v < 0 ∧ 0 ≤ x + v ∧ x + v ≤ 100))

/-- Both axes of a particle satisfy the reflecting-update invariant. -/
def GoodParticle (p : Particle) : Prop :=
  goodAxis p.x p.vx ∧ goodAxis p.y p.vy

/-- A particle witnessing boundary overshoot: legal initial draws with
x at the lower boundary and the most negative legal velocity. -/
def escapeParticle : Particle :=
  { x := 0, y := 0, vx := -(1/2), vy := 0, size := 3 }

/-! ## VideoManager (script.js lines 854-962 Education, 2022-2092 Educatum) -/

/-- The substring tested by VideoManager via src.includes. -/
def autoplayKey : List Char := ['a', 'u', 't', 'o', 'p', 'l', 'a', 'y', '=', '1']

/-- The substring appended by playVideo and stripped by
pauseAllVideos. -/
def ampAutoplay : List Char := '&' :: autoplayKey

/-- VideoManager.playVideo: when the src is truthy (nonempty; a null
attribute is modelled as the empty list) and does not already contain
the autoplay parameter, append it; otherwise leave the src alone. -/
def playVideo (src : List Char) : List Char :=
  if src ≠ [] ∧ containsSub src autoplayKey = false then src ++ ampAutoplay
  else src

/-- The per-card body of VideoManager.pauseAllVideos: when the src
contains the autoplay parameter, remove the first occurrence of the
appended form. -/
def pauseVideo (src : List Char) : List Char :=
  if containsSub src autoplayKey then replaceFirst src ampAutoplay [] else src

/-- VideoManager.pauseAllVideos: applies the strip to every card of the
manager, with no card excluded. -/
def pauseAllVideos (cards : List (List Char)) : List (List Char) :=
  cards.map pauseVideo

/-- Educatum variant mouseenter handler of setupVideoCard: calls
pauseAllVideos; the index of the hovered card is not consulted. -/
def hoverCard_Ecu (cards : List (List Char)) (_hovered : Nat) : List (List Char) :=
  pauseAllVideos cards

/-- Education variant mouseenter handler of setupVideoCard: the handler
body is empty (only a comment), so no card is paused. -/
def hoverCard_Edu (cards : List (List Char)) (_hovered : Nat) : List (List Char) :=
  cards

/-- Two playing cards: the hovered card and one other card, both with
the autoplay parameter appended to an autoplay-free base URL. -/
def hoverCards0 : List (List Char) :=
  [['v', '=', 'a'] ++ ampAutoplay, ['v', '=', 'b'] ++ ampAutoplay]

/-! ## NavigationManager menu state and body scroll lock
(script.js lines 406-521, 136-166, 1400-1431 Education) -/

/-- The cross-component state touched by the menu and loading code: the
global isMenuOpen flag, the sidebar active class and aria-modal
attribute, the body overflow style, and the menu button rotation. -/
structure NavState where
  isMenuOpen : Bool
  sidebarActive : Bool
  ariaModal : String
  bodyOverflow : String
  menuRotation : String
deriving DecidableEq

/-- NavigationManager.openMenu: set the flag, add the sidebar active
class and aria-modal, lock body scroll, rotate the menu button. -/
def openMenu (s : NavState) : NavState :=
  { s with
    isMenuOpen := true
    sidebarActive := true
    ariaModal := "true"
    bodyOverflow := "hidden"
    menuRotation := "rotate(90deg)" }

/-- NavigationManager.closeMenu: clear the flag, remove the sidebar
active class, restore body scroll, reset the menu button. -/
def closeMenu (s : NavState) : NavState :=
  { s with
    isMenuOpen := false
    sidebarActive := false
    ariaModal := "false"
    bodyOverflow := "auto"
    menuRotation := "rotate(0deg)" }

/-- NavigationManager.toggleMenu: close when open, open when closed. -/
def toggleMenu (s : NavState) : NavState :=
  if s.isMenuOpen then closeMenu s else openMenu s

/-- The body-overflow effect of LoadingManager.hide: after the minimum
load time it sets document.body.style.overflow to auto, without
consulting or changing the menu state. -/
def loadingHide (s : NavState) : NavState :=
  { s with bodyOverflow := "auto" }

/-- The body-overflow effect of EducationApp.handleInitError: restores
scroll by setting overflow to auto, without touching the menu state. -/
def handleInitError (s : NavState) : NavState :=
  { s with bodyOverflow := "auto" }

/-- The menu-button click handler wired by
EducationApp.initMinimalFunctionality: toggles only the sidebar active
class; the isMenuOpen flag and the body overflow are untouched. -/
def minimalMenuToggle (s : NavState) : NavState :=
  { s with sidebarActive := !s.sidebarActive }

/-- Body scroll is locked exactly when the menu-open flag is set. -/
def ScrollLockInv (s : NavState) : Prop :=
  s.isMenuOpen = true ↔ s.bodyOverflow = "hidden"

/-- A closed menu with scroll unlocked, as after closeMenu. -/
def navClosed : NavState :=
  { isMenuOpen := false
    sidebarActive := false
    ariaModal := "false"
    bodyOverflow := "auto"
    menuRotation := "rotate(0deg)" }

/-! ## CustomCursor frame loop (script.js lines 312-396 Education) -/

/-- Simulation state for the CustomCursor animation loop.  localId is
the closure variable animationFrameId assigned on every frame; storedId
is the field this.animationFrameId, assigned once at the end of init;
pending is the identifier of the currently scheduled animation-frame
callback; nextId is the next fresh request identifier; domWrites counts
the style mutations performed by updateCursor. -/
structure CursorState where
  localId : Nat
  storedId : Option Nat
  pending : Option Nat
  nextId : Nat
  domWrites : Nat
deriving DecidableEq

/-- One run of the updateCursor closure: write the two transform styles
(counted as one frame of DOM writes) and schedule the next frame,
assigning the fresh request identifier to the closure variable. -/
def updateCursor (s : CursorState) : CursorState :=
  { s with
    domWrites := s.domWrites + 1
    pending := some s.nextId
    localId := s.nextId
    nextId := s.nextId + 1 }

/-- CustomCursor.init: run updateCursor once synchronously, then copy
the closure variable into this.animationFrameId.  Later frames update
only the closure variable, never the field. -/
def cursorInit : CursorState :=
  let s := updateCursor
    { localId := 0, storedId := none, pending := none, nextId := 1, domWrites := 0 }
  { s with storedId := some s.localId }

/-- One browser animation-frame tick: when a callback is scheduled, it
is consumed and runs updateCursor (which schedules the next frame with
a fresh identifier); otherwise nothing happens. -/
def frameTick (s : CursorState) : CursorState :=
  match s.pending with
  | some _ => updateCursor { s with pending := none }
  | none => s

/-- CustomCursor.destroy: cancelAnimationFrame on the stored
this.animationFrameId; cancellation only removes the scheduled callback
whose identifier equals the cancelled one. -/
def cursorDestroy (s : CursorState) : CursorState :=
  match s.storedId with
  | some i => if s.pending = some i then { s with pending := none } else s
  | none => s

/-! ## Lemmas about the string primitives -/

/-- Every list is a prefix of itself. -/
theorem isPrefixL_refl (l : List Char) : isPrefixL l l = true := by
  induction l with
  | nil => rfl
  | cons a t ih => simp [isPrefixL, ih]

/-- A prefix is no longer than the list it starts. -/
theorem isPrefixL_length {n h : List Char} (hp : isPrefixL n h = true) :
    n.length ≤ h.length := by
  induction n generalizing h with
  | nil => simp
  | cons a t ih =>
    cases h with
    | nil => simp [isPrefixL] at hp
    | cons b h2 =>
      simp only [isPrefixL, Bool.and_eq_true] at hp
      simpa [List.length_cons] using Nat.succ_le_succ (ih hp.2)

/-- An ampersand-free needle that starts a list of the shape
l ++ ampersand :: m already starts l. -/
theorem isPrefixL_skip_amp :
    ∀ (n l m : List Char), '&' ∉ n →
      isPrefixL n (l ++ '&' :: m) = true → isPrefixL n l = true := by
  intro n
  induction n with
  | nil => intro l m _ _; cases l <;> rfl
  | cons a t ih =>
    intro l m hn h
    cases l with
    | nil =>
      simp only [List.nil_append, isPrefixL, Bool.and_eq_true, beq_iff_eq] at h
      exact absurd (h.1 ▸ List.mem_cons_self a t) hn
    | cons b l2 =>
      simp only [List.cons_append, isPrefixL, Bool.and_eq_true, beq_iff_eq] at h ⊢
      exact ⟨h.1, ih l2 m (fun hm => hn (List.mem_cons_of_mem a hm)) h.2⟩

/-- Search succeeds in a longer list when it succeeds in the tail. -/
theorem containsSub_cons_of (c : Char) (t n : List Char)
    (h : containsSub t n = true) : containsSub (c :: t) n = true := by
  simp [containsSub, h]

/-- Search succeeds in an extension on the left when it succeeds in the
appended part. -/
theorem containsSub_append_left (l x n : List Char)
    (h : containsSub x n = true) : containsSub (l ++ x) n = true := by
  induction l with
  | nil => simpa using h
  | cons c t ih => simpa [List.cons_append] using containsSub_cons_of c (t ++ x) n ih

/-- Every list contains itself. -/
theorem containsSub_refl (l : List Char) : containsSub l l = true := by
  cases l with
  | nil => rfl
  | cons c t => simp [containsSub, isPrefixL_refl]

/-- Prepending an ampersand keeps the needle present. -/
theorem containsSub_amp_cons (n : List Char) : containsSub ('&' :: n) n = true := by
  simp [containsSub, containsSub_refl]

/-- A successful prefix match is a successful search. -/
theorem containsSub_of_isPrefixL {n t : List Char} (h : isPrefixL n t = true) :
    containsSub t n = true := by
  cases t with
  | nil => simpa [containsSub] using h
  | cons c r => simp [containsSub, h]

/-- A needle longer than the haystack never occurs. -/
theorem countSub_of_short {hay needle : List Char}
    (h : hay.length < needle.length) : countSub hay needle = 0 := by
  induction hay with
  | nil =>
    cases needle with
    | nil => simp at h
    | cons a t => simp [countSub, isPrefixL]
  | cons c t ih =>
    have h1 : ¬ isPrefixL needle (c :: t) = true := by
      intro hp
      have := isPrefixL_length hp
      simp [List.length_cons] at h this
      omega
    have h2 : t.length < needle.length := by
      simp [List.length_cons] at h
      omega
    simp [countSub, h1, ih h2]

/-- Every list occurs exactly once in itself. -/
theorem countSub_self (n : List Char) : countSub n n = 1 := by
  cases n with
  | nil => rfl
  | cons c t =>
    have h0 : countSub t (c :: t) = 0 := countSub_of_short (by simp)
    simp [countSub, isPrefixL_refl, h0]

/-- An ampersand-free nonempty needle occurs exactly once in the
needle with an ampersand prepended. -/
theorem countSub_amp_cons {n : List Char} (hne : n ≠ []) (hn : '&' ∉ n) :
    countSub ('&' :: n) n = 1 := by
  have h1 : ¬ isPrefixL n ('&' :: n) = true := by
    cases n with
    | nil => exact absurd rfl hne
    | cons a t =>
      have ha : a ≠ '&' := fun h => hn (h ▸ List.mem_cons_self a t)
      simp only [isPrefixL, Bool.and_eq_true, beq_iff_eq]
      intro hp
      exact ha hp.1
  simp [countSub, h1, countSub_self]

/-- Appending the ampersand-prefixed needle to a needle-free base adds
no further occurrence. -/
theorem countSub_append_amp {u n : List Char} (hn : '&' ∉ n)
    (hu : containsSub u n = false) :
    countSub (u ++ '&' :: n) n = countSub ('&' :: n) n := by
  induction u with
  | nil => rfl
  | cons c t ih =>
    have h1 : ¬ isPrefixL n (c :: t) = true ∧ containsSub t n = false := by
      constructor
      · intro hp
        simp [containsSub, hp] at hu
      · rcases Bool.or_eq_false_iff.mp (by simpa [containsSub] using hu) with ⟨_, h⟩
        exact h
    have h2 : ¬ isPrefixL n ((c :: t) ++ '&' :: n) = true := by
      intro hb
      exact h1.1 (isPrefixL_skip_amp n (c :: t) n hn hb)
    simp only [List.cons_append, countSub] at h2 ⊢
    rw [if_neg (by simpa [List.cons_append] using h2)]
    simpa using ih h1.2

/-- Stripping the first appended autoplay suffix from a base that never
contained the needle restores the base. -/
theorem replaceFirst_append_amp {u n : List Char} (hn : '&' ∉ n)
    (hu : containsSub u n = false) :
    replaceFirst (u ++ '&' :: n) ('&' :: n) [] = u := by
  induction u with
  | nil =>
    simp only [List.nil_append, replaceFirst, isPrefixL_refl, if_pos]
    simp [List.drop_length]
  | cons c t ih =>
    have h1 : ¬ isPrefixL n (c :: t) = true ∧ containsSub t n = false := by
      constructor
      · intro hp
        simp [containsSub, hp] at hu
      · rcases Bool.or_eq_false_iff.mp (by simpa [containsSub] using hu) with ⟨_, h⟩
        exact h
    have h2 : ¬ isPrefixL ('&' :: n) ((c :: t) ++ '&' :: n) = true := by
      simp only [List.cons_append, isPrefixL, Bool.and_eq_true, beq_iff_eq]
      intro hp
      have h3 : isPrefixL n t = true := isPrefixL_skip_amp n t n hn hp.2
      have h4 : containsSub t n = true := containsSub_of_isPrefixL h3
      rw [h1.2] at h4
      exact Bool.false_ne_true h4
    simp only [List.cons_append, replaceFirst]
    rw [if_neg (by simpa [List.cons_append] using h2)]
    exact congrArg (List.cons c) (ih h1.2)

/-- The autoplay needle is ampersand-free and nonempty. -/
theorem autoplayKey_facts : '&' ∉ autoplayKey ∧ autoplayKey ≠ [] := by decide

/-- Applying playVideo and then the pauseAllVideos strip restores a src
that never contained the autoplay parameter: an empty src is untouched
by both, and a nonempty one has the appended parameter removed
again. -/
theorem pauseVideo_playVideo {u : List Char}
    (hu : containsSub u autoplayKey = false) :
    pauseVideo (playVideo u) = u := by
  cases u with
  | nil => rfl
  | cons c t =>
    have hplay : playVideo (c :: t) = (c :: t) ++ ampAutoplay := by
      simp [playVideo, hu]
    have hcont : containsSub ((c :: t) ++ ampAutoplay) autoplayKey = true := by
      simpa [ampAutoplay] using
        containsSub_append_left (c :: t) ('&' :: autoplayKey) autoplayKey
          (containsSub_amp_cons autoplayKey)
    rw [hplay]
    simp only [pauseVideo, hcont, if_pos]
    simpa [ampAutoplay] using
      replaceFirst_append_amp autoplayKey_facts.1 hu

/-! ## Claim C7 -/

/-- C7 counterexample: the empty embed URL does not contain the
autoplay parameter, yet two playVideo calls leave it empty — the
truthiness guard makes playVideo a no-op there, so the resulting URL
carries zero autoplay parameters, not exactly one. -/
theorem c7_counterexample :
    containsSub [] autoplayKey = false ∧
    playVideo (playVideo []) = [] ∧
    countSub (playVideo (playVideo [])) autoplayKey = 0 := by
  exact ⟨rfl, by decide, by decide⟩

/-- C7 (amended): for any truthy (nonempty) embed URL that does not
already contain the autoplay parameter, calling playVideo twice yields
a URL with exactly one occurrence of the autoplay parameter, and the
second call leaves the URL unchanged.  (For an empty src the
truthiness guard makes playVideo a no-op, leaving zero autoplay
parameters.) -/
theorem c7_playVideo_idempotent (u : List Char) (hne : u ≠ [])
    (hu : containsSub u autoplayKey = false) :
    playVideo (playVideo u) = playVideo u ∧
    countSub (playVideo (playVideo u)) autoplayKey = 1 := by
  have hplay : playVideo u = u ++ ampAutoplay := by simp [playVideo, hne, hu]
  have hcont : containsSub (u ++ ampAutoplay) autoplayKey = true := by
    simpa [ampAutoplay] using
      containsSub_append_left u ('&' :: autoplayKey) autoplayKey
        (containsSub_amp_cons autoplayKey)
  have hfix : playVideo (u ++ ampAutoplay) = u ++ ampAutoplay := by
    simp [playVideo, hcont]
  constructor
  · rw [hplay, hfix]
  · rw [hplay, hfix]
    have h1 : countSub (u ++ '&' :: autoplayKey) autoplayKey =
        countSub ('&' :: autoplayKey) autoplayKey :=
      countSub_append_amp autoplayKey_facts.1 hu
    have h2 : countSub ('&' :: autoplayKey) autoplayKey = 1 :=
      countSub_amp_cons autoplayKey_facts.2 autoplayKey_facts.1
    simpa [ampAutoplay] using h1.trans h2

/-- A concrete autoplay-free embed URL. -/
def demoUrl : List Char := ['h', 't', 't', 'p', ':', '/', '/', 'v', '?', 'i', 'd', '=', '7']

/-- C7 witness: the amended idempotence theorem applied to a concrete
nonempty URL. -/
theorem c7_witness :
    demoUrl ≠ [] ∧
    containsSub demoUrl autoplayKey = false ∧
    (playVideo (playVideo demoUrl) = playVideo demoUrl ∧
     countSub (playVideo (playVideo demoUrl)) autoplayKey = 1) :=
  ⟨by decide, by decide, c7_playVideo_idempotent demoUrl (by decide) (by decide)⟩

/-! ## Claim C3 -/

/-- C3 counterexample: with two playing cards, hovering the first card
does not leave its own URL unchanged — pauseAllVideos strips the
autoplay parameter from the hovered card as well. -/
theorem c3_counterexample :
    hoverCards0.map (fun s => containsSub s autoplayKey) = [true, true] ∧
    (hoverCard_Ecu hoverCards0 0)[0]? ≠ hoverCards0[0]? := by
  constructor
  · decide
  · decide

/-- C3 (amended): in the Educatum variant, hovering any card strips the
autoplay parameter from every card that carries it, the hovered card
included: any card whose URL is an autoplay-free base with the autoplay
parameter appended ends up with the bare base URL.  In the Education
variant the hover handler has an empty body and changes nothing. -/
theorem c3_hover_pauses_every_card (cards : List (List Char)) (i j : Nat)
    (u : List Char) (hu : containsSub u autoplayKey = false)
    (hj : cards[j]? = some (playVideo u)) :
    (hoverCard_Ecu cards i)[j]? = some u ∧ hoverCard_Edu cards i = cards := by
  constructor
  · simp [hoverCard_Ecu, pauseAllVideos, List.getElem?_map, hj,
      pauseVideo_playVideo hu]
  · rfl

/-- Two cards, the first being a playing card built from the base URL
v=a by playVideo. -/
def demoCards : List (List Char) :=
  [playVideo ['v', '=', 'a'], ['v', '=', 'b']]

/-- C3 witness: hovering card 0 of demoCards strips the autoplay
parameter from card 0 itself. -/
theorem c3_witness :
    containsSub ['v', '=', 'a'] autoplayKey = false ∧
    demoCards[0]? = some (playVideo ['v', '=', 'a']) ∧
    ((hoverCard_Ecu demoCards 0)[0]? = some ['v', '=', 'a'] ∧
     hoverCard_Edu demoCards 0 = demoCards) :=
  ⟨by decide, rfl,
    c3_hover_pauses_every_card demoCards 0 0 ['v', '=', 'a'] (by decide) rfl⟩

/-! ## Claim C1 -/

/-- The reflecting update preserves the one-axis invariant. -/
theorem goodAxis_step {x v : ℚ} (h : goodAxis x v) :
    goodAxis (x + v) (if x + v < 0 ∨ 100 < x + v then -v else v) := by
  obtain ⟨hv, hc⟩ := h
  by_cases hout : x + v < 0 ∨ 100 < x + v
  · rw [if_pos hout]
    refine ⟨by rwa [abs_neg], ?_⟩
    rcases hc with ⟨h0, h1⟩ | ⟨h0, h1, h2, h3⟩ | ⟨h0, h1, h2, h3⟩
    · rcases hout with hlt | hgt
      · exact Or.inr (Or.inl ⟨hlt, by linarith, by linarith, by linarith⟩)
      · exact Or.inr (Or.inr ⟨hgt, by linarith, by linarith, by linarith⟩)
    · exact absurd hout (by push_neg; constructor <;> linarith)
    · exact absurd hout (by push_neg; constructor <;> linarith)
  · rw [if_neg hout]
    push_neg at hout
    exact ⟨hv, Or.inl ⟨by linarith [hout.1], hout.2⟩⟩

/-- stepParticle preserves the particle invariant on both axes. -/
theorem goodParticle_step {p : Particle} (h : GoodParticle p) :
    GoodParticle (stepParticle p) := by
  obtain ⟨hx, hy⟩ := h
  constructor
  · simpa [stepParticle] using goodAxis_step hx
  · simpa [stepParticle] using goodAxis_step hy

/-- The invariant confines each coordinate to the band
[-0.5, 100.5]. -/
theorem goodAxis_band {x v : ℚ} (h : goodAxis x v) : InBand x := by
  obtain ⟨hv, hc⟩ := h
  have hv1 : -(1/2) ≤ v ∧ v ≤ 1/2 := abs_le.mp hv
  rcases hc with ⟨h0, h1⟩ | ⟨h0, h1, h2, h3⟩ | ⟨h0, h1, h2, h3⟩ <;>
    exact ⟨by linarith [hv1.1, hv1.2], by linarith [hv1.1, hv1.2]⟩

/-- The createParticles random ranges establish the invariant. -/
theorem goodParticle_init {p : Particle} (h : ParticleInitOk p) :
    GoodParticle p := by
  obtain ⟨h1, h2, h3, h4, h5, h6, h7, h8⟩ := h
  exact ⟨⟨abs_le.mpr ⟨h5, h6⟩, Or.inl ⟨h1, h2⟩⟩,
    ⟨abs_le.mpr ⟨h7, h8⟩, Or.inl ⟨h3, h4⟩⟩⟩

/-- One animate call preserves the invariant of every particle. -/
theorem animate_inv {s : ParticleSystemState}
    (h : ∀ p ∈ s.particles, GoodParticle p) :
    ∀ q ∈ (animate s).particles, GoodParticle q := by
  intro q hq
  unfold animate at hq
  split at hq
  · obtain ⟨p, hp, rfl⟩ := List.mem_map.mp (by simpa using hq)
    exact goodParticle_step (h p hp)
  · exact h q hq

/-- Any number of animate calls preserves the invariant of every
particle. -/
theorem animateN_inv : ∀ (n : Nat) (s : ParticleSystemState),
    (∀ p ∈ s.particles, GoodParticle p) →
    ∀ q ∈ (animateN n s).particles, GoodParticle q := by
  intro n
  induction n with
  | zero => intro s h q hq; exact h q hq
  | succ m ih => intro s h q hq; exact ih (animate s) (animate_inv h) q hq

/-- C1 (amended): for particles created with positions in [0,100] and
velocity components in [-0.5, 0.5], every coordinate stays within
[-0.5, 100.5] after any number of animation-frame advances; a particle
can overshoot [0,100] by at most one frame of travel before the
velocity flip brings it back.  (It does not stay within [0,100]
itself.) -/
theorem c1_particles_stay_in_band (ps : List Particle) (n : Nat)
    (h : ∀ p ∈ ps, ParticleInitOk p) :
    ∀ q ∈ (animateN n { particles := ps, isActive := true }).particles,
      InBand q.x ∧ InBand q.y := by
  intro q hq
  have hg : GoodParticle q :=
    animateN_inv n { particles := ps, isActive := true }
      (fun p hp => goodParticle_init (h p hp)) q hq
  exact ⟨goodAxis_band hg.1, goodAxis_band hg.2⟩

/-- A concrete legal particle away from the boundary. -/
def demoParticle : Particle :=
  { x := 50, y := 50, vx := 1/4, vy := -(1/4), size := 4 }

/-- C1 witness: the band theorem applied to one concrete particle and
three frames. -/
theorem c1_witness :
    (∀ p ∈ [demoParticle], ParticleInitOk p) ∧
    ∀ q ∈ (animateN 3 { particles := [demoParticle], isActive := true }).particles,
      InBand q.x ∧ InBand q.y := by
  have hinit : ∀ p ∈ [demoParticle], ParticleInitOk p := by
    intro p hp
    rw [List.mem_singleton] at hp
    subst hp
    refine ⟨?_, ?_, ?_, ?_, ?_, ?_, ?_, ?_⟩ <;> norm_num [demoParticle]
  exact ⟨hinit, c1_particles_stay_in_band [demoParticle] 3 hinit⟩

/-- C1 counterexample: a particle drawn at the lower boundary with the
most negative legal velocity leaves [0,100] after one animate call
(its x coordinate becomes -1/2), refuting the claim that positions stay
within [0,100] on each axis. -/
theorem c1_counterexample :
    ParticleInitOk escapeParticle ∧
    ∃ q ∈ (animateN 1 { particles := [escapeParticle], isActive := true }).particles,
      q.x < 0 := by
  constructor
  · refine ⟨?_, ?_, ?_, ?_, ?_, ?_, ?_, ?_⟩ <;> norm_num [escapeParticle]
  · refine ⟨stepParticle escapeParticle, ?_, ?_⟩
    · simp [animateN, animate]
    · norm_num [stepParticle, escapeParticle]

/-! ## Claim C9 -/

/-- C9: above 768 px with reduced motion off, init creates exactly
min(50, floor(innerWidth/30)) particles; at 1200 px that is 40. -/
theorem c9_particle_count (w : Nat) (rand : Nat → Particle) (h : 768 < w) :
    (initParticles w false rand).length = min 50 (w / 30) ∧
    (initParticles 1200 false rand).length = 40 := by
  constructor
  · simp [initParticles, createParticles, particleCount, h]
  · simp [initParticles, createParticles, particleCount]

/-- C9 witness: the count theorem applied at viewport width 1200. -/
theorem c9_witness :
    768 < 1200 ∧
    ((initParticles 1200 false (fun _ => demoParticle)).length = min 50 (1200 / 30) ∧
     (initParticles 1200 false (fun _ => demoParticle)).length = 40) :=
  ⟨by decide, c9_particle_count 1200 (fun _ => demoParticle) (by decide)⟩

/-! ## Claim C5 -/

/-- C5: CustomCursor.destroy is total (calling it twice throws nothing
and changes nothing), but it does not stop the frame loop: after one
frame tick the pending request identifier (2) no longer matches the
stored first-frame identifier (1), so both destroy calls are no-ops,
the callback stays scheduled, and the next tick still performs a DOM
write.  Destroy before any tick, by contrast, does cancel. -/
theorem c5_cursor_loop_survives_destroy :
    cursorDestroy (cursorDestroy (frameTick cursorInit)) = frameTick cursorInit ∧
    (cursorDestroy (cursorDestroy (frameTick cursorInit))).pending = some 2 ∧
    (frameTick (cursorDestroy (cursorDestroy (frameTick cursorInit)))).domWrites =
      (frameTick cursorInit).domWrites + 1 ∧
    (cursorDestroy cursorInit).pending = none := by
  refine ⟨?_, ?_, ?_, ?_⟩ <;> decide

/-! ## Claim C6 -/

/-- C6 counterexample: with the menu open, the body-overflow effect of
LoadingManager.hide unlocks body scroll while the menu-open flag stays
true, breaking the claimed biconditional. -/
theorem c6_counterexample :
    ¬ ScrollLockInv (loadingHide (openMenu navClosed)) := by
  simp [ScrollLockInv, loadingHide, openMenu, navClosed]

/-- C6 (amended): the menu operations openMenu, closeMenu and
toggleMenu establish or preserve the scroll-lock biconditional, and the
operations that touch body overflow without touching the menu state
(LoadingManager.hide, handleInitError, the minimal fallback menu
toggle) preserve it only when the menu is closed; with the menu open,
hide and handleInitError break it. -/
theorem c6_menu_ops_preserve_scroll_lock (s : NavState) :
    ScrollLockInv (openMenu s) ∧
    ScrollLockInv (closeMenu s) ∧
    (ScrollLockInv s → ScrollLockInv (toggleMenu s)) ∧
    (s.isMenuOpen = false → ScrollLockInv s → ScrollLockInv (loadingHide s)) ∧
    (s.isMenuOpen = false → ScrollLockInv s → ScrollLockInv (handleInitError s)) ∧
    (ScrollLockInv s → ScrollLockInv (minimalMenuToggle s)) := by
  refine ⟨?_, ?_, ?_, ?_, ?_, ?_⟩
  · simp [ScrollLockInv, openMenu]
  · simp [ScrollLockInv, closeMenu]
  · intro h
    cases hb : s.isMenuOpen <;>
      simp [toggleMenu, hb, ScrollLockInv, openMenu, closeMenu]
  · intro h1 h2
    simp [ScrollLockInv, loadingHide, h1]
  · intro h1 h2
    simp [ScrollLockInv, handleInitError, h1]
  · intro h
    simpa [ScrollLockInv, minimalMenuToggle] using h

/-- C6 witness: the preservation theorem applied to the closed-menu
state. -/
theorem c6_witness :
    ScrollLockInv (openMenu navClosed) ∧
    ScrollLockInv (toggleMenu navClosed) ∧
    ScrollLockInv (loadingHide navClosed) := by
  have h := c6_menu_ops_preserve_scroll_lock navClosed
  have hinv : ScrollLockInv navClosed := by simp [ScrollLockInv, navClosed]
  exact ⟨h.1, h.2.2.1 hinv, h.2.2.2.1 rfl hinv⟩

/-! ## Claim C2 -/

/-- A concrete theme state: light theme applied, nothing stored. -/
def themeState0 : ThemeState :=
  { currentTheme := "light", dataTheme := "light", iconClass := "fas fa-moon",
    ariaPressed := "false", stored := none }

/-- C2 counterexample: in the Educatum variant, a throwing storage
access propagates out of getInitialTheme and toggleTheme — the
operations do throw instead of silently continuing. -/
theorem c2_counterexample :
    getInitialTheme_Ecu (.error ()) false = .error () ∧
    toggleTheme_Ecu themeState0 true = .error () := by
  exact ⟨rfl, rfl⟩

/-- C2 (amended): in the Education variant the theme operations do not
throw when storage is unavailable: getInitialTheme and the
system-theme-change listener short-circuit on the precomputed
availability flag, and toggleTheme wraps its body in try/catch, so even
a throwing setItem leaves the new theme applied and propagates
nothing.  The Educatum variant lacks these guards and propagates
storage exceptions. -/
theorem c2_storage_unavailable_no_throw (g : Except Unit (Option String))
    (p m : Bool) (st : ThemeState) :
    getInitialTheme_Edu false g p = .ok (mediaFallback p) ∧
    mediaChangeListener_Edu false g m st = .ok (applyTheme (mediaFallback m) st) ∧
    toggleTheme_Edu st false true = toggleThemeState st ∧
    toggleTheme_Edu st true true = toggleThemeState st := by
  exact ⟨rfl, rfl, rfl, rfl⟩

/-! ## Claim C4 -/

/-- C4: a stored theme in the set of light and dark is returned
verbatim by getInitialTheme in both variants, whatever the system
color-scheme preference reports. -/
theorem c4_stored_theme_wins (s : String) (p : Bool)
    (h : s = "light" ∨ s = "dark") :
    getInitialTheme_Edu true (.ok (some s)) p = .ok s ∧
    getInitialTheme_Ecu (.ok (some s)) p = .ok s := by
  rcases h with h | h <;> subst h <;> exact ⟨rfl, rfl⟩

/-- C4 witness: stored light wins against a dark system preference. -/
theorem c4_witness :
    getInitialTheme_Edu true (.ok (some "light")) true = .ok "light" ∧
    getInitialTheme_Ecu (.ok (some "light")) true = .ok "light" :=
  c4_stored_theme_wins "light" true (Or.inl rfl)

/-! ## Claim C10 -/

/-- C10: getInitialTheme performs no validation — any nonempty stored
string is returned verbatim without consulting the system preference,
and applyTheme then writes that arbitrary string into the data-theme
attribute of the document root. -/
theorem c10_unvalidated_stored_theme (s : String) (p : Bool) (st : ThemeState)
    (h : s ≠ "") :
    getInitialTheme_Edu true (.ok (some s)) p = .ok s ∧
    getInitialTheme_Ecu (.ok (some s)) p = .ok s ∧
    (applyTheme s st).dataTheme = s := by
  have ht : jsTruthy (some s) = true := by simp [jsTruthy, h]
  refine ⟨?_, ?_, rfl⟩
  · simp [getInitialTheme_Edu, ht]
  · simp [getInitialTheme_Ecu, ht]

/-- C10 witness: a corrupted stored value is applied verbatim. -/
theorem c10_witness :
    "solarized" ≠ "" ∧
    (getInitialTheme_Edu true (.ok (some "solarized")) true = .ok "solarized" ∧
     getInitialTheme_Ecu (.ok (some "solarized")) true = .ok "solarized" ∧
     (applyTheme "solarized" themeState0).dataTheme = "solarized") :=
  ⟨by decide, c10_unvalidated_stored_theme "solarized" true themeState0 (by decide)⟩

/-! ## Claim C8 -/

/-- The theme fields of toggleTheme do not depend on the storage
branch taken. -/
theorem toggleTheme_Edu_theme (st : ThemeState) (a t : Bool) :
    (toggleTheme_Edu st a t).currentTheme = (toggleThemeState st).currentTheme ∧
    (toggleTheme_Edu st a t).dataTheme = (toggleThemeState st).dataTheme := by
  cases a <;> cases t <;> simp [toggleTheme_Edu, toggleThemeBody_Edu]

/-- C8: starting from an applied theme in the set of light and dark,
two toggleTheme calls return the data-theme attribute of the document
root to its original value (involution), for any storage availability
and any storage failure. -/
theorem c8_toggleTheme_involution (st : ThemeState) (a t : Bool)
    (hd : st.dataTheme = st.currentTheme)
    (h : st.currentTheme = "light" ∨ st.currentTheme = "dark") :
    (toggleTheme_Edu (toggleTheme_Edu st a t) a t).dataTheme = st.dataTheme := by
  have h1 := toggleTheme_Edu_theme st a t
  have h2 := toggleTheme_Edu_theme (toggleTheme_Edu st a t) a t
  rw [h2.2, hd]
  rcases h with h | h <;>
    simp [toggleThemeState, applyTheme, h1.1, h]

/-- A concrete theme state with the dark theme applied and stored. -/
def darkState : ThemeState :=
  { currentTheme := "dark", dataTheme := "dark", iconClass := "fas fa-sun",
    ariaPressed := "true", stored := some "dark" }

/-- C8 witness: two toggles from the dark state restore the dark
attribute. -/
theorem c8_witness :
    darkState.dataTheme = darkState.currentTheme ∧
    (darkState.currentTheme = "light" ∨ darkState.currentTheme = "dark") ∧
    (toggleTheme_Edu (toggleTheme_Edu darkState true false) true false).dataTheme =
      darkState.dataTheme :=
  ⟨rfl, Or.inr rfl, c8_toggleTheme_involution darkState true false rfl (Or.inr rfl)⟩
